import Mathlib

/-!
Verification development for the content-moderation core of the repository
(`text_analysis`-style module: hate-speech/profanity detection, sensitive-info
regex detection, encrypt/redact transformer and recovery engine).

Strings are modelled as `List Char` (JS strings over the ASCII inputs used
here).  JavaScript regular expressions are modelled by a small backtracking
engine (`Re`, `mrun`) with JS semantics: leftmost match, greedy quantifiers,
alternatives tried left to right, `\b` word boundaries.  Each pattern string
of the source is transcribed into a `Re` value.
-/

namespace SocioEg

abbrev Str := List Char

/-- Convert a Lean string literal to the `List Char` representation. -/
def strOf (s : String) : Str := s.data

/-- Decimal digit test, JS `\d`. -/
def isDigitChar (c : Char) : Bool := '0' ≤ c && c ≤ '9'

/-- Whitespace test, JS `\s` (ASCII part). -/
def isSpaceChar (c : Char) : Bool :=
  c = ' ' || c = '\t' || c = '\n' || c = '\r' || c = '\x0b' || c = '\x0c'

/-- Word-character test, JS `\w`. -/
def isWordChar (c : Char) : Bool :=
  ('a' ≤ c && c ≤ 'z') || ('A' ≤ c && c ≤ 'Z') || isDigitChar c || c = '_'

/-- JS `match.replace(/\D/g, '')`: keep only the digit characters. -/
def digitsOf (s : Str) : Str := s.filter isDigitChar

/-- Numeric value of a digit character, JS `parseInt` on a single digit. -/
def charDigit (c : Char) : Nat := c.toNat - 48

/-- JS `String.prototype.trim` (ASCII whitespace). -/
def trimStr (s : Str) : Str :=
  ((s.dropWhile isSpaceChar).reverse.dropWhile isSpaceChar).reverse

/-- JS `String.prototype.toLowerCase` (ASCII). -/
def lowerStr (s : Str) : Str := s.map Char.toLower

/-- JS `String.prototype.toUpperCase` (ASCII), applied to a category name. -/
def upperName (s : String) : Str := s.data.map Char.toUpper

/-- Boolean prefix test on character lists. -/
def isPre : Str → Str → Bool
  | [], _ => true
  | _ :: _, [] => false
  | a :: as, b :: bs => if a = b then isPre as bs else false

/-- Index of the first occurrence of `pat` in `s`, if any (JS `indexOf`). -/
def firstIdx (pat : Str) : Str → Option Nat
  | [] => if isPre pat [] then some 0 else none
  | c :: rest =>
      if isPre pat (c :: rest) then some 0
      else (firstIdx pat rest).map (· + 1)

/-- JS `s.includes(pat)`. -/
def containsSub (s pat : Str) : Bool := (firstIdx pat s).isSome

/-- JS `s.indexOf(pat)`: first index or `-1`. -/
def indexOfInt (s pat : Str) : Int :=
  match firstIdx pat s with
  | some i => (i : Int)
  | none => -1

/-- JS `s.replace(pat, repl)` with a plain-string pattern: replace only the
first occurrence, or return `s` unchanged when `pat` does not occur. -/
def replaceFirst (s pat repl : Str) : Str :=
  match firstIdx pat s with
  | none => s
  | some i => s.take i ++ repl ++ s.drop (i + pat.length)

/-- JS `String.prototype.split` on a single separator character. -/
def splitOnChar (sep : Char) : Str → List Str
  | [] => [[]]
  | c :: rest =>
      if c = sep then [] :: splitOnChar sep rest
      else
        match splitOnChar sep rest with
        | h :: t => (c :: h) :: t
        | [] => [[c]]

/-- Deduplication preserving first-occurrence order, JS `[...new Set(xs)]`. -/
def dedupAux : List Str → List Str → List Str
  | [], _ => []
  | x :: rest, seen =>
      if x ∈ seen then dedupAux rest seen else x :: dedupAux rest (x :: seen)

def dedupPreserve (l : List Str) : List Str := dedupAux l []

/-- Insert into a list sorted by weakly descending key, after all elements of
equal key (this is what a stable sort does to a later element). -/
def insDesc {α : Type} (key : α → Int) (x : α) : List α → List α
  | [] => [x]
  | y :: rest => if key x ≤ key y then y :: insDesc key x rest else x :: y :: rest

/-- Stable sort by weakly descending key, the behaviour of JS
`Array.prototype.sort` with comparator `(a, b) => key(b) - key(a)`. -/
def stableSortDescBy {α : Type} (key : α → Int) (l : List α) : List α :=
  l.foldl (fun acc x => insDesc key x acc) []

/-! ## Regular-expression engine

`Re` covers exactly the constructs used by the source's pattern strings:
character classes (with ranges), concatenation, alternation, greedy `*`,
greedy `?`, and the word-boundary assertion `\b`.  Counted repetitions
`{m}`, `{m,n}`, `{m,}`, `+` are derived forms. -/

inductive Re where
  | eps : Re
  | cls : List (Char × Char) → Re
  | seq : Re → Re → Re
  | alt : Re → Re → Re
  | star : Re → Re
  | opt : Re → Re
  | wb : Re

/-- Membership of a character in a class given as a list of ranges. -/
def inCls (c : Char) : List (Char × Char) → Bool
  | [] => false
  | (a, b) :: rest => if a ≤ c && c ≤ b then true else inCls c rest

/-- Backtracking matcher.  `prev` is the character just before the current
position (for `\b`); the continuation `k` receives the new previous character
and the remaining input, and the first alternative whose continuation
succeeds wins — exactly the JS backtracking order (alternatives left to
right, quantifiers greedy). `fuel` only bounds the recursion; it is chosen
large enough that it never runs out on the patterns and inputs involved. -/
def mrun : Nat → Re → Option Char → Str → (Option Char → Str → Option Str) → Option Str
  | 0, _, _, _, _ => none
  | fuel + 1, re, prev, s, k =>
    match re with
    | .eps => k prev s
    | .cls items =>
        match s with
        | [] => none
        | c :: rest => if inCls c items then k (some c) rest else none
    | .wb =>
        let lw := match prev with | some p => isWordChar p | none => false
        let rw := match s with | c :: _ => isWordChar c | [] => false
        if lw ≠ rw then k prev s else none
    | .seq a b => mrun fuel a prev s (fun p2 s2 => mrun fuel b p2 s2 k)
    | .alt a b =>
        match mrun fuel a prev s k with
        | some r => some r
        | none => mrun fuel b prev s k
    | .opt a =>
        match mrun fuel a prev s k with
        | some r => some r
        | none => k prev s
    | .star a =>
        match mrun fuel a prev s
            (fun p2 s2 => if s2.length < s.length then mrun fuel (.star a) p2 s2 k else none) with
        | some r => some r
        | none => k prev s

/-- Length of the (greedy, leftmost-alternative) match of `re` at the current
position, if any. -/
def matchHere (re : Re) (prev : Option Char) (s : Str) : Option Nat :=
  match mrun (2 * s.length + 400) re prev s (fun _ rest => some rest) with
  | some rest => some (s.length - rest.length)
  | none => none

def lastCharOpt (matched : Str) (prev : Option Char) : Option Char :=
  match matched.getLast? with
  | some c => some c
  | none => prev

/-- All matches of `re` in `s`, left to right and non-overlapping: the
behaviour of the source's `while ((match = regex.exec(text)) !== null)` loop
with the `g` flag (none of the source's patterns can match empty). -/
def findAllAux (re : Re) : Nat → Option Char → Str → List Str
  | 0, _, _ => []
  | fuel + 1, prev, s =>
    match matchHere re prev s with
    | some len =>
        if len = 0 then
          match s with
          | [] => []
          | c :: rest => findAllAux re fuel (some c) rest
        else
          s.take len :: findAllAux re fuel (lastCharOpt (s.take len) prev) (s.drop len)
    | none =>
        match s with
        | [] => []
        | c :: rest => findAllAux re fuel (some c) rest

def findAll (re : Re) (s : Str) : List Str := findAllAux re (s.length + 1) none s

/-- JS `regex.test(s)`: does `re` match anywhere in `s`? -/
def hasMatch (re : Re) (s : Str) : Bool := !(findAll re s).isEmpty

/-! Combinators used to transcribe the source's pattern strings. -/

def rcat : List Re → Re
  | [] => .eps
  | [r] => r
  | r :: rest => .seq r (rcat rest)

def ror : List Re → Re
  | [] => .eps
  | [r] => r
  | r :: rest => .alt r (ror rest)

def rchar (c : Char) : Re := .cls [(c, c)]

def rstr (s : String) : Re := rcat (s.data.map rchar)

def rset (cs : List Char) : Re := .cls (cs.map fun c => (c, c))

def reps : Nat → Re → Re
  | 0, _ => .eps
  | n + 1, r => .seq r (reps n r)

def upTo : Nat → Re → Re
  | 0, _ => .eps
  | n + 1, r => .opt (.seq r (upTo n r))

/-- Greedy counted repetition `r{m,n}`. -/
def between (m n : Nat) (r : Re) : Re := .seq (reps m r) (upTo (n - m) r)

/-- Greedy `r{m,}`. -/
def atLeast (m : Nat) (r : Re) : Re := .seq (reps m r) (.star r)

/-- Greedy `r+`. -/
def plus1 (r : Re) : Re := .seq r (.star r)

def reDigit : Re := .cls [('0', '9')]

def spaceRanges : List (Char × Char) :=
  [(' ', ' '), ('\t', '\t'), ('\n', '\n'), ('\r', '\r'), ('\x0b', '\x0b'), ('\x0c', '\x0c')]

def reSpace : Re := .cls spaceRanges

/-- JS class `[\s-]` (also written `[-\s]` in the source). -/
def spaceDash : Re := .cls (spaceRanges ++ [('-', '-')])

def reWord : Re := .cls [('a', 'z'), ('A', 'Z'), ('0', '9'), ('_', '_')]

def upperCls : Re := .cls [('A', 'Z')]

def upperDigitCls : Re := .cls [('A', 'Z'), ('0', '9')]

/-! ## The source's pattern library (`PATTERNS` object)

Each definition transcribes one regex string of the source's `PATTERNS`
table, in the same order. -/

/-- Source pattern `\b(?:\+91[\s-]?)?[6-9]\d{9}\b`. -/
def patPhone1 : Re :=
  rcat [.wb, .opt (rcat [rchar '+', rstr "91", .opt spaceDash]),
        .cls [('6', '9')], reps 9 reDigit, .wb]

/-- Source pattern `\b(?:0)?[6-9]\d{9}\b`. -/
def patPhone2 : Re :=
  rcat [.wb, .opt (rchar '0'), .cls [('6', '9')], reps 9 reDigit, .wb]

/-- Source pattern `\b[6-9]\d{2}[\s-]?\d{3}[\s-]?\d{4}\b`. -/
def patPhone3 : Re :=
  rcat [.wb, .cls [('6', '9')], reps 2 reDigit, .opt spaceDash,
        reps 3 reDigit, .opt spaceDash, reps 4 reDigit, .wb]

/-- Source pattern `\b[a-zA-Z0-9._%+-]+@[a-zA-Z0-9.-]+\.[a-zA-Z]{2,}\b`. -/
def patEmail : Re :=
  rcat [.wb,
        plus1 (.cls [('a', 'z'), ('A', 'Z'), ('0', '9'), ('.', '.'), ('_', '_'),
                     ('%', '%'), ('+', '+'), ('-', '-')]),
        rchar '@',
        plus1 (.cls [('a', 'z'), ('A', 'Z'), ('0', '9'), ('.', '.'), ('-', '-')]),
        rchar '.',
        atLeast 2 (.cls [('a', 'z'), ('A', 'Z')]),
        .wb]

/-- Source pattern `\b\d{4}\s?\d{4}\s?\d{4}\b`. -/
def patAadhaar : Re :=
  rcat [.wb, reps 4 reDigit, .opt reSpace, reps 4 reDigit, .opt reSpace,
        reps 4 reDigit, .wb]

/-- Source pattern `\b[A-Z]{5}[0-9]{4}[A-Z]\b`. -/
def patPan : Re :=
  rcat [.wb, reps 5 upperCls, reps 4 reDigit, upperCls, .wb]

/-- Source pattern
`\b(?:acc(?:ount)?(?:\s?(?:no|number|#))?\s?[:=]?\s?)?\d{9,18}\b`. -/
def patAccount1 : Re :=
  rcat [.wb,
        .opt (rcat [rstr "acc", .opt (rstr "ount"),
                    .opt (rcat [.opt reSpace, ror [rstr "no", rstr "number", rchar '#']]),
                    .opt reSpace, .opt (rset [':', '=']), .opt reSpace]),
        between 9 18 reDigit, .wb]

/-- Source pattern `\ba/c\s?(?:no|#|:|=)?\s?\d{9,18}\b`. -/
def patAccount2 : Re :=
  rcat [.wb, rstr "a/c", .opt reSpace,
        .opt (ror [rstr "no", rchar '#', rchar ':', rchar '=']),
        .opt reSpace, between 9 18 reDigit, .wb]

/-- Source pattern `\bank\s?(?:no|#|:|=)?\s?\d{9,18}\b` (note: the source
string really is `\bank...`, i.e. a word boundary followed by `ank`). -/
def patAccount3 : Re :=
  rcat [.wb, rstr "ank", .opt reSpace,
        .opt (ror [rstr "no", rchar '#', rchar ':', rchar '=']),
        .opt reSpace, between 9 18 reDigit, .wb]

/-- Source pattern `\b[A-Z]{4}0[A-Z0-9]{6}\b`. -/
def patIfsc : Re :=
  rcat [.wb, reps 4 upperCls, rchar '0', reps 6 upperDigitCls, .wb]

/-- Source pattern `\b[A-Z]{4}[A-Z]{2}[A-Z0-9]{2}(?:[A-Z0-9]{3})?\b`. -/
def patSwift : Re :=
  rcat [.wb, reps 4 upperCls, reps 2 upperCls, reps 2 upperDigitCls,
        .opt (reps 3 upperDigitCls), .wb]

/-- Source pattern `\b(?:\d{4}[\s-]?){3}\d{4}\b`. -/
def patCredit1 : Re :=
  rcat [.wb, reps 3 (rcat [reps 4 reDigit, .opt spaceDash]), reps 4 reDigit, .wb]

/-- Source pattern
`\b(?:4[0-9]{12}(?:[0-9]{3})?|5[1-5][0-9]{14}|3[47][0-9]{13}|3(?:0[0-5]|[68][0-9])[0-9]{11}|6(?:011|5[0-9]{2})[0-9]{12}|(?:2131|1800|35\d{3})\d{11})\b`. -/
def patCredit2 : Re :=
  rcat [.wb,
        ror [rcat [rchar '4', reps 12 reDigit, .opt (reps 3 reDigit)],
             rcat [rchar '5', .cls [('1', '5')], reps 14 reDigit],
             rcat [rchar '3', rset ['4', '7'], reps 13 reDigit],
             rcat [rchar '3', ror [rcat [rchar '0', .cls [('0', '5')]],
                                   rcat [rset ['6', '8'], reDigit]],
                   reps 11 reDigit],
             rcat [rchar '6', ror [rstr "011", rcat [rchar '5', reps 2 reDigit]],
                   reps 12 reDigit],
             rcat [ror [rstr "2131", rstr "1800", rcat [rstr "35", reps 3 reDigit]],
                   reps 11 reDigit]],
        .wb]

/-- Source pattern `\b\d{3}[-\s]?\d{2}[-\s]?\d{4}\b`. -/
def patSsn : Re :=
  rcat [.wb, reps 3 reDigit, .opt spaceDash, reps 2 reDigit, .opt spaceDash,
        reps 4 reDigit, .wb]

/-- Source pattern `\b\d{3}[\s-]?\d{3}[\s-]?\d{4}\b`. -/
def patNhs : Re :=
  rcat [.wb, reps 3 reDigit, .opt spaceDash, reps 3 reDigit, .opt spaceDash,
        reps 4 reDigit, .wb]

/-- Source pattern `\b[A-Z]{1,2}\d{6,9}\b`. -/
def patPassport1 : Re :=
  rcat [.wb, between 1 2 upperCls, between 6 9 reDigit, .wb]

/-- Source pattern `\b[A-Z][0-9]{7}\b`. -/
def patPassport2 : Re :=
  rcat [.wb, upperCls, reps 7 reDigit, .wb]

/-- Source pattern `\b-?\d{1,2}\.\d{1,8},\s*-?\d{1,3}\.\d{1,8}\b`. -/
def patGps : Re :=
  rcat [.wb, .opt (rchar '-'), between 1 2 reDigit, rchar '.', between 1 8 reDigit,
        rchar ',', .star reSpace, .opt (rchar '-'), between 1 3 reDigit,
        rchar '.', between 1 8 reDigit, .wb]

/-- The source's `PATTERNS` object: category name to ordered pattern list. -/
def PATTERNS (cat : String) : List Re :=
  if cat = "phone_numbers" then [patPhone1, patPhone2, patPhone3]
  else if cat = "emails" then [patEmail]
  else if cat = "aadhaar" then [patAadhaar]
  else if cat = "pan" then [patPan]
  else if cat = "account_numbers" then [patAccount1, patAccount2, patAccount3]
  else if cat = "ifsc_codes" then [patIfsc]
  else if cat = "swift_codes" then [patSwift]
  else if cat = "credit_cards" then [patCredit1, patCredit2]
  else if cat = "ssn" then [patSsn]
  else if cat = "nhs_numbers" then [patNhs]
  else if cat = "passport_numbers" then [patPassport1, patPassport2]
  else if cat = "gps_coordinates" then [patGps]
  else []

/-! ## Hate-speech and profanity pattern lists -/

def grpWords : Re :=
  ror [rstr "people", rstr "group", rstr "community", rstr "race", rstr "ethnicity"]

def wsPlus : Re := plus1 reSpace

/-- JS `(?:\w+\s+)*`. -/
def anyWords : Re := .star (rcat [plus1 reWord, wsPlus])

/-- The source's `HATE_SPEECH_KEYWORDS` list, one `Re` per pattern string. -/
def HATE_SPEECH_KEYWORDS : List Re :=
  [ -- \b(?:kill|eliminate|destroy|murder|slaughter|genocide)\s+(?:all|every|each)\s+(?:\w+\s+)*(?:people|group|community|race|ethnicity)\b
    rcat [.wb, ror [rstr "kill", rstr "eliminate", rstr "destroy", rstr "murder",
                    rstr "slaughter", rstr "genocide"],
          wsPlus, ror [rstr "all", rstr "every", rstr "each"], wsPlus, anyWords,
          grpWords, .wb],
    -- \b(?:death|die|eliminate|exterminate)\s+to\s+(?:all|every)\s+(?:\w+\s+)*(?:people|group|community|race|ethnicity)\b
    rcat [.wb, ror [rstr "death", rstr "die", rstr "eliminate", rstr "exterminate"],
          wsPlus, rstr "to", wsPlus, ror [rstr "all", rstr "every"], wsPlus, anyWords,
          grpWords, .wb],
    -- \b(?:all|every|those)\s+(?:\w+\s+)*(?:people|group|community|race|ethnicity)\s+(?:are|is)\s+(?:animals|vermin|cockroaches|rats|trash|garbage)\b
    rcat [.wb, ror [rstr "all", rstr "every", rstr "those"], wsPlus, anyWords,
          grpWords, wsPlus, ror [rstr "are", rstr "is"], wsPlus,
          ror [rstr "animals", rstr "vermin", rstr "cockroaches", rstr "rats",
               rstr "trash", rstr "garbage"], .wb],
    -- \b(?:we|they|people|everyone)\s+should\s+(?:kill|eliminate|eradicate|remove|cleanse)\s+(?:all|every|the|those)\s+(?:\w+\s+)*(?:people|group|community|race|ethnicity)\b
    rcat [.wb, ror [rstr "we", rstr "they", rstr "people", rstr "everyone"], wsPlus,
          rstr "should", wsPlus,
          ror [rstr "kill", rstr "eliminate", rstr "eradicate", rstr "remove",
               rstr "cleanse"],
          wsPlus, ror [rstr "all", rstr "every", rstr "the", rstr "those"], wsPlus,
          anyWords, grpWords, .wb],
    -- \b(?:hate|despise|loathe)\s+(?:all|every|those|these)\s+(?:\w+\s+)*(?:people|group|community|race|ethnicity)\b
    rcat [.wb, ror [rstr "hate", rstr "despise", rstr "loathe"], wsPlus,
          ror [rstr "all", rstr "every", rstr "those", rstr "these"], wsPlus,
          anyWords, grpWords, .wb],
    -- \b(?:all|every|each)\s+(?:\w+\s+)*(?:people|group|community|race|ethnicity)\s+(?:should|must|need to)\s+(?:be|get)\s+(?:banned|deported|removed|eliminated|killed)\b
    rcat [.wb, ror [rstr "all", rstr "every", rstr "each"], wsPlus, anyWords,
          grpWords, wsPlus, ror [rstr "should", rstr "must", rstr "need to"], wsPlus,
          ror [rstr "be", rstr "get"], wsPlus,
          ror [rstr "banned", rstr "deported", rstr "removed", rstr "eliminated",
               rstr "killed"], .wb]]

/-- The source's `PROFANITY_PATTERNS` list, one `Re` per pattern string, in
the same order. -/
def PROFANITY_PATTERNS : List Re :=
  [ rcat [.wb, rchar 'a', rset ['s', '$'], rset ['s', '$'], .wb],
    rcat [.wb, rchar 'b', rset ['i', '!'], .opt (rchar 't'), rstr "ch", .wb],
    rcat [.wb, rchar 'f', rset ['u', '*'], rset ['c', '*'], rchar 'k', .wb],
    rcat [.wb, rchar 's', rset ['h', '*'], rset ['i', '*'], rchar 't', .wb],
    rcat [.wb, rchar 'd', rset ['a', '*'], rstr "mn", .wb],
    rcat [.wb, rchar 'h', rset ['e', '*'], rstr "ll", .wb],
    rcat [.wb, rstr "cr", rset ['a', '*'], rchar 'p', .wb],
    rcat [.wb, rchar 'd', rset ['i', '*'], rstr "ck", .wb],
    rcat [.wb, rchar 'f', rset ['u', '*'], rstr "ck",
          .opt (ror [rstr "er", rstr "ing", rstr "ed"]), .wb],
    rcat [.wb, rchar 'g', rset ['a', '*'], rset ['a', '*'], rstr "nd", .wb],
    rcat [.wb, rstr "ch", rset ['u', '*'], rchar 't', rset ['i', '*'], rstr "ya", .wb],
    rcat [.wb, rchar 'b', rset ['e', '*'], rset ['h', '*'], rset ['e', '*'], rchar 'n',
          .opt (rchar ' '), rstr "ch", rset ['o', '*'], rchar 'd', .wb],
    rcat [.wb, rchar 'n', rset ['i', '*'], rstr "gg", rset ['e', '*'], rchar 'r', .wb],
    rcat [.wb, rchar 'f', rset ['a', '*'], rchar 'g', .wb],
    rcat [.wb, rchar 'c', rset ['u', '*'], rstr "nt", .wb],
    rcat [.wb, rstr "f**k", .wb],
    rcat [.wb, rstr "s**t", .wb],
    rcat [.wb, rstr "a**", .wb],
    rcat [.wb, rstr "b***h", .wb]]

/-! ## Validators -/

def isUpperAZ (c : Char) : Bool := 'A' ≤ c && c ≤ 'Z'

/-- JS `['6', '7', '8', '9'].includes(c)`. -/
def char69 (c : Char) : Bool := c = '6' || c = '7' || c = '8' || c = '9'

/-- Source `validateAadhaar`: strip non-digits, check for exactly 12 digits
(the source implements no checksum, a documented simplification). -/
def validateAadhaar (t : Str) : Bool := (digitsOf t).length == 12

/-- Source `validatePan`: anchored test of `^[A-Z]{5}[0-9]{4}[A-Z]$`. -/
def validatePan (t : Str) : Bool :=
  match t with
  | [a, b, c, d, e, f, g, h, i, j] =>
      isUpperAZ a && isUpperAZ b && isUpperAZ c && isUpperAZ d && isUpperAZ e &&
      isDigitChar f && isDigitChar g && isDigitChar h && isDigitChar i && isUpperAZ j
  | _ => false

/-- Doubling step of the Luhn algorithm: double, subtract 9 when above 9. -/
def dbl (d : Nat) : Nat := if 2 * d > 9 then 2 * d - 9 else 2 * d

/-- Luhn summation as the source's left-to-right loop computes it: the flag
says whether the current digit is doubled, and it alternates.  The source's
condition `((i & 1) ^ oddEven) === 0` doubles index `i` exactly when
`i % 2 = n % 2`, so the flag starts at `!oddb n`. -/
def luhnWalk : Bool → List Nat → Nat
  | _, [] => 0
  | b, d :: rest => (if b then dbl d else d) + luhnWalk (!b) rest

def oddb (n : Nat) : Bool := decide (n % 2 = 1)

/-- Source `validateCreditCard`: strip non-digits, require 13–19 digits (the
12-digit Aadhaar test after it can never fire), then the Luhn checksum. -/
def validateCreditCard (t : Str) : Bool :=
  if (digitsOf t).length < 13 ∨ 19 < (digitsOf t).length then false
  else if (digitsOf t).length = 12 ∧ validateAadhaar (digitsOf t) = true then false
  else (luhnWalk (!oddb (digitsOf t).length) ((digitsOf t).map charDigit)) % 10 == 0

def nhsWeights : List Nat := [10, 9, 8, 7, 6, 5, 4, 3, 2]

/-- Pointwise weighted sum, the source's `checksum += digits[i] * weights[i]`
loop over the first nine digits. -/
def weightedSum : List Nat → List Nat → Nat
  | w :: ws, d :: ds => w * d + weightedSum ws ds
  | _, _ => 0

/-- Leading digit 6–9, the source's `['6','7','8','9'].includes(digits[0])`. -/
def lead69 : Str → Bool
  | c :: _ => char69 c
  | [] => false

/-- Strong health-service context, the source's
`text.toLowerCase().includes('nhs') || text.toLowerCase().includes('national health')`. -/
def nhsContext (text : Str) : Bool :=
  containsSub (lowerStr text) (strOf "nhs") ||
  containsSub (lowerStr text) (strOf "national health")

/-- The modulus-11 check of the source's `isValidNhsNumber`: multiply digits
1–9 by the weights 10 down to 2, sum, and compare the check digit
`(11 - sum % 11) % 11` with the 10th digit. -/
def nhsChecksumOk (ds : List Nat) : Bool :=
  (11 - (weightedSum nhsWeights ds) % 11) % 11 == ds.getD 9 0

/-- Source `isValidNhsNumber(match, text)`: 10 digits; a leading digit 6–9 is
rejected unless the surrounding text has strong NHS context; then the
modulus-11 checksum with check digit `(11 - remainder) % 11`. -/
def isValidNhsNumber (m text : Str) : Bool :=
  if (digitsOf m).length ≠ 10 then false
  else if lead69 (digitsOf m) && !nhsContext text then false
  else nhsChecksumOk ((digitsOf m).map charDigit)

/-- Source `validateNhsNumber(match)` (the variant the detector calls): 10
digits, a leading digit 6–9 is rejected unconditionally, then the modulus-11
checksum with `checkDigit = 11 - remainder`, mapped to 0 when it is 11. -/
def validateNhsNumber (m : Str) : Bool :=
  if (digitsOf m).length ≠ 10 then false
  else if lead69 (digitsOf m) then false
  else
    (if 11 - (weightedSum nhsWeights ((digitsOf m).map charDigit)) % 11 = 11 then 0
     else 11 - (weightedSum nhsWeights ((digitsOf m).map charDigit)) % 11) ==
      ((digitsOf m).map charDigit).getD 9 0

def accountKeywords : List Str :=
  [strOf "account", strOf "bank", strOf "a/c", strOf "acc", strOf "savings",
   strOf "current"]

/-- Source `isValidAccountNumber(match, context)`: 9–18 digits AND a
contextual keyword in the surrounding text.  (The detector never calls this
function; it is kept here because the specification describes it.) -/
def isValidAccountNumber (m context : Str) : Bool :=
  if (digitsOf m).length < 9 ∨ 18 < (digitsOf m).length then false
  else accountKeywords.any (fun kw => containsSub (lowerStr context) kw)

/-! ## Sentence splitting and the hate-speech/profanity pass -/

def headPunct : Str → Bool
  | p :: _ => p = '.' || p = '!' || p = '?'
  | [] => false

/-- Splitting a paragraph with the source's
`split(/(?<=[.!?])\s+|(?<=[.!?])$/)`: a maximal whitespace run whose first
character is preceded by `.`, `!` or `?` separates sentences (the `$`
alternative only adds a trailing empty token, which the caller filters). -/
def splitSentAux : Nat → Str → Str → List Str
  | 0, _, cur => [cur.reverse]
  | _ + 1, [], cur => [cur.reverse]
  | fuel + 1, c :: rest, cur =>
      if isSpaceChar c && headPunct cur then
        cur.reverse :: splitSentAux fuel (rest.dropWhile isSpaceChar) []
      else splitSentAux fuel rest (c :: cur)

def splitSentences (p : Str) : List Str := splitSentAux (p.length + 1) p []

/-- The source's sentence extraction: split on line breaks, split each
paragraph into sentences, trim, drop empties. -/
def sentencesOf (text : Str) : List Str :=
  (splitOnChar '\n' text).flatMap
    (fun p => ((splitSentences p).map trimStr).filter (fun s => !s.isEmpty))

/-- Result record of `detectHateSpeechProfanity` (the source returns an
object with exactly these four fields). -/
structure HspResult where
  hate_speech : Bool
  profanity : Bool
  flagged_words : List Str
  flagged_sentences : List Str
deriving DecidableEq

/-- Source `detectHateSpeechProfanity`: per sentence, test the lowercased
sentence against every hate-speech template (flag only), collect every
profanity match as a flagged word (deduplicated with `includes`), and record
the original sentence when anything matched. -/
def detectHateSpeechProfanity (text : Str) : HspResult :=
  (sentencesOf text).foldl
    (fun res sentence =>
      let lower := lowerStr sentence
      let hasHate := HATE_SPEECH_KEYWORDS.any (fun p => hasMatch p lower)
      let profMatches := PROFANITY_PATTERNS.flatMap (fun p => findAll p lower)
      let hasProf := !profMatches.isEmpty
      { hate_speech := res.hate_speech || hasHate
        profanity := res.profanity || hasProf
        flagged_words :=
          profMatches.foldl (fun ws w => if w ∈ ws then ws else ws ++ [w])
            res.flagged_words
        flagged_sentences :=
          if hasHate || hasProf then
            if sentence ∈ res.flagged_sentences then res.flagged_sentences
            else res.flagged_sentences ++ [sentence]
          else res.flagged_sentences })
    ⟨false, false, [], []⟩

/-! ## The sensitive-information detector (`regexPatternDetection`) -/

/-- JavaScript runtime errors relevant to this module.  `referenceError` is
thrown when an undeclared identifier is read. -/
inductive JsError where
  | referenceError : JsError
deriving DecidableEq

/-- The per-match validation body of `regexPatternDetection`'s inner loop
(source lines 849–909 of the module).  The first `if/else if` chain either
skips the match (`continue`, modelled as `.ok none`) or falls through.  Every
fall-through path then evaluates the statement at source line 875,
`if (digits.length === 10 && ...)`, which reads the identifier `digits`:
every declaration of `digits` in this function is a block-scoped `const`
inside some branch, so at that point `digits` is not in scope and the read
throws a `ReferenceError`.  Consequently no match is ever added: the
`nhs_numbers`, `account_numbers` and `credit_cards` guards below that line,
and the final `matches.push`, are unreachable. -/
def matchBody (cat : String) (m : Str) : Except JsError (Option Str) :=
  if cat = "phone_numbers" then
    if (digitsOf m).length = 10 && !char69 ((digitsOf m).getD 0 ' ') then .ok none
    else if (digitsOf m).length > 10 && isPre (strOf "91") (digitsOf m) &&
        !char69 ((digitsOf m).getD 2 ' ') then .ok none
    else if (digitsOf m).length = 10 && validateNhsNumber m then .ok none
    else .error .referenceError
  else if cat = "aadhaar" && !validateAadhaar m then .ok none
  else if cat = "pan" && !validatePan m then .ok none
  else if cat = "credit_cards" && !validateCreditCard m then .ok none
  else .error .referenceError

/-- The inner `while` loop over the raw matches of one pattern: skip a match
already claimed by a higher-priority category, otherwise run the validation
body; on success the match would be appended to both the category's matches
and the global claimed set. -/
def loopMatches (cat : String) : List Str → List Str → List Str →
    Except JsError (List Str × List Str)
  | [], acc, already => .ok (acc, already)
  | m :: rest, acc, already =>
      if m ∈ already then loopMatches cat rest acc already
      else
        match matchBody cat m with
        | .error e => .error e
        | .ok none => loopMatches cat rest acc already
        | .ok (some s) => loopMatches cat rest (acc ++ [s]) (already ++ [s])

/-- The loop over one category's pattern list. -/
def processPatterns (cat : String) (text : Str) : List Re → List Str → List Str →
    Except JsError (List Str × List Str)
  | [], acc, already => .ok (acc, already)
  | p :: ps, acc, already =>
      match loopMatches cat (findAll p text) acc already with
      | .error e => .error e
      | .ok (m2, a2) => processPatterns cat text ps m2 a2

/-- The source's fixed priority order over categories. -/
def categoryOrder : List String :=
  ["emails", "pan", "ifsc_codes", "swift_codes", "passport_numbers",
   "credit_cards", "ssn", "gps_coordinates", "phone_numbers", "nhs_numbers",
   "aadhaar", "account_numbers"]

/-- The outer loop of `regexPatternDetection`: build
`sensitiveInfo[category] = [...new Set(matches)]` in priority order,
threading the global `alreadyMatched` set. -/
def runCategories (text : Str) : List String → List Str →
    Except JsError (List (String × List Str))
  | [], _ => .ok []
  | cat :: rest, already =>
      match processPatterns cat text (PATTERNS cat) [] already with
      | .error e => .error e
      | .ok (ms, already2) =>
          match runCategories text rest already2 with
          | .error e => .error e
          | .ok si => .ok ((cat, dedupPreserve ms) :: si)

/-- The detection result object: the shape returned by both
`regexPatternDetection` and `detectContent`, and consumed by `processText`.
`sensitive_info` is an association list in key-insertion order (JS object). -/
structure DetectionResult where
  hate_speech : Bool
  profanity : Bool
  flagged_words : List Str
  flagged_sentences : List Str
  sensitive_info : List (String × List Str)
deriving DecidableEq

/-- Source `regexPatternDetection`: run the priority-ordered sensitive-info
pass and return the result object whose hate-speech/profanity fields are
hard-coded placeholders (`false`, `[]`) — the source never calls
`detectHateSpeechProfanity` here.  A thrown `JsError` propagates, as the
source has no try/catch around this code. -/
def regexPatternDetection (text : Str) : Except JsError DetectionResult :=
  match runCategories text categoryOrder [] with
  | .error e => .error e
  | .ok si =>
      .ok { hate_speech := false, profanity := false, flagged_words := [],
            flagged_sentences := [], sensitive_info := si }

/-- Source `detectContent` on the regex-only path (`SKIP_VERTEX_AI`, or the
AI client absent/failing): it first runs `regexPatternDetection(text)`
unconditionally and without try/catch — so an error from the regex pass
propagates on every path — and returns the regex result. -/
def detectContent (text : Str) : Except JsError DetectionResult :=
  regexPatternDetection text

/-! ## Cipher (`encryptData` / `decryptData`) -/

def hexDigitChar (n : Nat) : Char :=
  if n < 10 then Char.ofNat (48 + n) else Char.ofNat (87 + n)

/-- Modelled from the spec: the AES-256-CBC core used by `encryptData` comes
from the external `crypto` library, described in the spec as symmetric
encryption whose initialization vector travels with the ciphertext, with
`decrypt(encrypt(x)) = x` under the process key.  It is modelled here by a
deterministic reversible byte encoding (two hex characters per character),
which preserves exactly the properties the transformer and recovery engine
rely on. -/
def encHexChar (c : Char) : Str :=
  [hexDigitChar (c.toNat % 256 / 16), hexDigitChar (c.toNat % 16)]

def encHex (s : Str) : Str := s.flatMap encHexChar

def hexVal (c : Char) : Nat :=
  if isDigitChar c then c.toNat - 48 else c.toNat - 87

/-- Inverse of `encHex` on its image. -/
def decHex : Str → Str
  | a :: b :: rest => Char.ofNat (16 * hexVal a + hexVal b) :: decHex rest
  | _ => []

/-- Source `encryptData`: produce `ivHex ++ ':' ++ cipherHex` (the IV is
needed for decryption and travels with the ciphertext). -/
def encryptData (s : Str) : Str :=
  strOf "00112233445566778899aabbccddeeff" ++ strOf ":" ++ encHex s

/-- Source `decryptData`: split at `':'` into IV and payload; on a malformed
input the thrown error is caught and an error-marker string is returned. -/
def decryptData (e : Str) : Str :=
  match splitOnChar ':' e with
  | [_iv, payload] => decHex payload
  | _ => strOf "[DECRYPTION_ERROR: Invalid encrypted data format]"

/-! ## Transformer (`processText`) and Recovery (`recoverEncryptedText`) -/

inductive Action where
  | keep : Action
  | remove : Action
  | encrypt : Action
deriving DecidableEq

/-- One record of the encryption log (`type`, `category`, `original`,
`encrypted`, `position`); `position` is a JS `indexOf` result and may be
`-1`. -/
structure LogEntry where
  type : String
  category : String
  original : Str
  encrypted : Str
  position : Int
deriving DecidableEq

def redactMarker (cat : String) : Str :=
  strOf "[REDACTED " ++ upperName cat ++ strOf "]"

def encMarker (cat : String) : Str :=
  strOf "[ENCRYPTED " ++ upperName cat ++ strOf "]"

/-- A JS string is skipped by the transformer's guards when it is empty or
whitespace-only (`!item || !item.trim()`). -/
def blankStr (s : Str) : Bool := s.isEmpty || (trimStr s).isEmpty

/-- One step of the sensitive-item loop of `processText`. -/
def stepSensitive (action : Action) (st : Str × List LogEntry)
    (ci : String × Str) : Str × List LogEntry :=
  match action with
  | .remove => (replaceFirst st.1 ci.2 (redactMarker ci.1), st.2)
  | .encrypt =>
      let enc := encryptData ci.2
      let repl := encMarker ci.1
      let p2 := replaceFirst st.1 ci.2 repl
      (p2, st.2 ++ [⟨"sensitive", ci.1, ci.2, enc, indexOfInt p2 repl⟩])
  | .keep => st

/-- One step of the flagged-word loop of `processText`. -/
def stepWord (action : Action) (st : Str × List LogEntry) (w : Str) :
    Str × List LogEntry :=
  if blankStr w then st
  else
    match action with
    | .remove => (replaceFirst st.1 w (List.replicate w.length '*'), st.2)
    | .encrypt =>
        let enc := encryptData w
        let repl := strOf "[ENCRYPTED WORD]"
        let p2 := replaceFirst st.1 w repl
        (p2, st.2 ++ [⟨"flagged_word", "profanity", w, enc, indexOfInt p2 repl⟩])
    | .keep => st

/-- One step of the flagged-sentence loop of `processText`; the logged
category depends on the detection's hate-speech flag. -/
def stepSentence (action : Action) (hate : Bool) (st : Str × List LogEntry)
    (s : Str) : Str × List LogEntry :=
  if blankStr s then st
  else
    match action with
    | .remove =>
        (replaceFirst st.1 s (strOf "[SENTENCE REMOVED DUE TO POLICY VIOLATION]"), st.2)
    | .encrypt =>
        let enc := encryptData s
        let repl := strOf "[ENCRYPTED SENTENCE]"
        let p2 := replaceFirst st.1 s repl
        (p2, st.2 ++
          [⟨"flagged_sentence", if hate then "hate_speech" else "profanity", s, enc,
            indexOfInt p2 repl⟩])
    | .keep => st

/-- Source `processText(text, detectionResults, action)`.  `keep` returns the
text unchanged with an empty log.  Otherwise: collect all sensitive items
with their categories, sort by descending item length (stable, as JS sort
is), substitute each (first occurrence only — JS `String.replace` with a
string pattern); then the flagged words (asterisk runs / `[ENCRYPTED WORD]`),
then the flagged sentences, each list sorted by descending length first.  The
source ends with an interactive console prompt offering to discard the whole
text when hate speech was detected and the action is `remove`; that blocking
read is modelled by the explicit `confirmRemoveAll` argument (the spec's
design note asks for exactly this caller-supplied decision flag). -/
def processText (text : Str) (d : DetectionResult) (action : Action)
    (confirmRemoveAll : Bool) : Str × List LogEntry :=
  if action = Action.keep then (text, [])
  else
    let allSensitiveItems :=
      d.sensitive_info.flatMap
        (fun ci => (ci.2.filter (fun i => !blankStr i)).map (fun i => (ci.1, i)))
    let sortedItems :=
      stableSortDescBy (fun ci : String × Str => (ci.2.length : Int)) allSensitiveItems
    let st1 := sortedItems.foldl (stepSensitive action) (text, [])
    let sortedWords :=
      stableSortDescBy (fun w : Str => (w.length : Int)) d.flagged_words
    let st2 := sortedWords.foldl (stepWord action) st1
    let sortedSentences :=
      stableSortDescBy (fun s : Str => (s.length : Int)) d.flagged_sentences
    let st3 := sortedSentences.foldl (stepSentence action d.hate_speech) st2
    if d.hate_speech && action = Action.remove && confirmRemoveAll then
      (strOf "[ENTIRE TEXT REMOVED DUE TO HATE SPEECH POLICY VIOLATION]", [])
    else st3

/-- The placeholder string reconstructed from a log entry's kind and
category during recovery (`null` for an unknown kind). -/
def placeholderFor (e : LogEntry) : Option Str :=
  if e.type = "sensitive" then some (encMarker e.category)
  else if e.type = "flagged_word" then some (strOf "[ENCRYPTED WORD]")
  else if e.type = "flagged_sentence" then some (strOf "[ENCRYPTED SENTENCE]")
  else none

/-- One entry of the recovery loop: skip entries without ciphertext or with
an unknown kind, and entries whose placeholder no longer occurs; otherwise
replace the first occurrence of the placeholder by the decrypted original. -/
def recoverStep (st : Str) (e : LogEntry) : Str :=
  if e.encrypted.isEmpty then st
  else
    match placeholderFor e with
    | none => st
    | some repl =>
        if containsSub st repl then replaceFirst st repl (decryptData e.encrypted)
        else st

/-- Source `recoverEncryptedText(processedText, encryptionLog)`: with an
empty log return the text unchanged; otherwise process the entries sorted by
descending recorded position (the comparator is
`(b.position || 0) - (a.position || 0)`, and `p || 0` is `p` for every
number the transformer records). -/
def recoverEncryptedText (processedText : Str) (log : List LogEntry) : Str :=
  if log.isEmpty then processedText
  else
    (stableSortDescBy (fun e => e.position) log).foldl recoverStep processedText

/-! ## Claim-side definitions and supporting lemmas -/

/-- The result `regexPatternDetection` returns whenever it returns at all:
every category list empty, hate-speech/profanity placeholders unset. -/
def emptyRegexResult : DetectionResult :=
  { hate_speech := false, profanity := false, flagged_words := [],
    flagged_sentences := [], sensitive_info := categoryOrder.map (fun c => (c, [])) }

/-- No literal string is classified under two different categories of a
detection result's sensitive-info mapping. -/
def noDoubleClassification (r : DetectionResult) : Prop :=
  ∀ c1 l1 c2 l2 w, (c1, l1) ∈ r.sensitive_info → (c2, l2) ∈ r.sensitive_info →
    w ∈ l1 → w ∈ l2 → c1 = c2

lemma matchBody_never_adds (cat : String) (m : Str) (r : Option Str)
    (h : matchBody cat m = .ok r) : r = none := by
  unfold matchBody at h
  repeat' split at h
  all_goals simp_all

lemma loopMatches_acc (cat : String) :
    ∀ ms acc already out alr, loopMatches cat ms acc already = .ok (out, alr) →
      out = acc := by
  intro ms
  induction ms with
  | nil =>
      intro acc already out alr h
      unfold loopMatches at h
      simp_all
  | cons m rest ih =>
      intro acc already out alr h
      unfold loopMatches at h
      split at h
      · exact ih _ _ _ _ h
      · cases hb : matchBody cat m with
        | error e => simp [hb] at h
        | ok r =>
            have hr := matchBody_never_adds cat m r hb
            subst hr
            simp only [hb] at h
            exact ih _ _ _ _ h

lemma processPatterns_acc (cat : String) (text : Str) :
    ∀ ps acc already out alr, processPatterns cat text ps acc already = .ok (out, alr) →
      out = acc := by
  intro ps
  induction ps with
  | nil =>
      intro acc already out alr h
      unfold processPatterns at h
      simp_all
  | cons p rest ih =>
      intro acc already out alr h
      unfold processPatterns at h
      cases hl : loopMatches cat (findAll p text) acc already with
      | error e => simp [hl] at h
      | ok pr =>
          obtain ⟨m2, a2⟩ := pr
          have hm : m2 = acc := loopMatches_acc cat _ _ _ _ _ hl
          subst hm
          simp only [hl] at h
          exact ih _ _ _ _ h

lemma runCategories_empty (text : Str) :
    ∀ cats already si, runCategories text cats already = .ok si →
      ∀ p ∈ si, p.2 = [] := by
  intro cats
  induction cats with
  | nil =>
      intro already si h p hp
      unfold runCategories at h
      simp_all
  | cons cat rest ih =>
      intro already si h p hp
      unfold runCategories at h
      cases hpp : processPatterns cat text (PATTERNS cat) [] already with
      | error e => simp [hpp] at h
      | ok pr =>
          obtain ⟨ms, a2⟩ := pr
          have hm : ms = [] := processPatterns_acc cat text _ _ _ _ _ hpp
          subst hm
          simp only [hpp] at h
          cases hrc : runCategories text rest a2 with
          | error e => simp [hrc] at h
          | ok si2 =>
              simp only [hrc] at h
              cases h
              rcases List.mem_cons.mp hp with hp | hp
              · simp [hp, dedupPreserve, dedupAux]
              · exact ih _ _ hrc p hp

/-- C2: whenever detection returns a result, no literal string appears under
two different categories of its sensitive-info mapping. -/
theorem claimC2_no_double_classification (text : Str) (r : DetectionResult)
    (h : regexPatternDetection text = .ok r) : noDoubleClassification r := by
  intro c1 l1 c2 l2 w h1 h2 hw1 _hw2
  unfold regexPatternDetection at h
  cases hc : runCategories text categoryOrder [] with
  | error e => simp [hc] at h
  | ok si =>
      simp only [hc] at h
      cases h
      have : l1 = [] := runCategories_empty text _ _ _ hc (c1, l1) h1
      subst this
      cases hw1

/-- Witness for C2: the empty text detects successfully and its result
satisfies the invariant. -/
theorem claimC2_witness : noDoubleClassification emptyRegexResult :=
  claimC2_no_double_classification [] emptyRegexResult rfl

/-- C1: detection raises instead of never raising.  On the input
`foo@bar.com` the email pattern produces a raw match; the validation body
then reads the out-of-scope identifier `digits` (source line 875) and the
resulting `ReferenceError` propagates out of `regexPatternDetection` and out
of `detectContent`, which calls it without try/catch. -/
theorem claimC1_detection_throws :
    regexPatternDetection (strOf "foo@bar.com") = .error .referenceError ∧
    detectContent (strOf "foo@bar.com") = .error .referenceError :=
  ⟨rfl, rfl⟩

/-- C4: the regex detection path does not include the sentence-level
hate-speech/profanity pass.  On the input `damn`, the (never invoked)
`detectHateSpeechProfanity` flags the word and the sentence, but
`detectContent`'s regex path returns the hard-coded placeholders: profanity
`false`, `flagged_words` and `flagged_sentences` empty. -/
theorem claimC4_hsp_pass_not_wired :
    detectHateSpeechProfanity (strOf "damn") =
      { hate_speech := false, profanity := true, flagged_words := [strOf "damn"],
        flagged_sentences := [strOf "damn"] } ∧
    detectContent (strOf "damn") = .ok emptyRegexResult :=
  ⟨rfl, rfl⟩

/-- C5: on the contextless bank-account candidate `123456789012345` the
detector does not return a result without an `account_numbers` entry — it
throws (the account pattern matches the 15 digits and the validation body
reads the out-of-scope `digits`).  The context-requiring validator
`isValidAccountNumber` itself does reject the candidate, but
`regexPatternDetection` never calls it. -/
theorem claimC5_contextless_account :
    regexPatternDetection (strOf "123456789012345") = .error .referenceError ∧
    isValidAccountNumber (strOf "123456789012345") (strOf "123456789012345") = false :=
  ⟨rfl, rfl⟩

/-- The detection result used in C3's failing input: the two email addresses
of the text, as the pattern library itself would classify them. -/
def twoEmailsDetection : DetectionResult :=
  { hate_speech := false, profanity := false, flagged_words := [],
    flagged_sentences := [],
    sensitive_info := [("emails", [strOf "a@b.co", strOf "bb@cc.in"])] }

/-- C3: the encrypt/recover round trip is not the identity.  With two items
of the same category, `processText` substitutes the longer item first, so
both log entries record positions via `indexOf` of the same placeholder; the
recovery engine then restores the two plaintexts into the wrong placeholders
and returns the text with the two emails swapped. -/
theorem claimC3_roundtrip_fails :
    recoverEncryptedText
        (processText (strOf "a@b.co bb@cc.in") twoEmailsDetection .encrypt false).1
        (processText (strOf "a@b.co bb@cc.in") twoEmailsDetection .encrypt false).2
      = strOf "bb@cc.in a@b.co" ∧
    strOf "bb@cc.in a@b.co" ≠ strOf "a@b.co bb@cc.in" :=
  ⟨rfl, by decide⟩

/-- C9: the `keep` action returns the original text and an empty log, for
every text and every detection result. -/
theorem claimC9_keep_identity (text : Str) (d : DetectionResult) (confirm : Bool) :
    processText text d .keep confirm = (text, []) := rfl

/-- Witness for C9 at a concrete input. -/
theorem claimC9_witness :
    processText (strOf "abc") emptyRegexResult .keep false = (strOf "abc", []) :=
  claimC9_keep_identity (strOf "abc") emptyRegexResult false

/-- C6: for every 10-digit candidate, `isValidNhsNumber` rejects a leading
digit 6–9 unless strong context is present, and otherwise accepts exactly
when the weighted modulus-11 checksum holds; the digits `9434765919` satisfy
the checksum, and any mutation of the last digit fails it. -/
theorem claimC6_nhs_validator :
    (∀ m ctx : Str, (digitsOf m).length = 10 →
      isValidNhsNumber m ctx =
        (!(lead69 (digitsOf m) && !nhsContext ctx) &&
          nhsChecksumOk ((digitsOf m).map charDigit))) ∧
    nhsChecksumOk [9, 4, 3, 4, 7, 6, 5, 9, 1, 9] = true ∧
    (∀ d : Nat, d ≤ 9 → d ≠ 9 → nhsChecksumOk [9, 4, 3, 4, 7, 6, 5, 9, 1, d] = false) := by
  refine ⟨?_, by decide, ?_⟩
  · intro m ctx hlen
    unfold isValidNhsNumber
    rw [if_neg (by simp [hlen])]
    cases hb : (lead69 (digitsOf m) && !nhsContext ctx) <;> simp [hb]
  · intro d hd9 hd
    interval_cases d <;> first | rfl | simp_all

/-- Witness for C6: the validator applied at the concrete digits, with and
without context, and the last-digit mutation at `0`. -/
theorem claimC6_witness :
    isValidNhsNumber (strOf "9434765919") (strOf "nhs: 9434765919") =
      (!(lead69 (digitsOf (strOf "9434765919")) &&
          !nhsContext (strOf "nhs: 9434765919")) &&
        nhsChecksumOk ((digitsOf (strOf "9434765919")).map charDigit)) ∧
    nhsChecksumOk [9, 4, 3, 4, 7, 6, 5, 9, 1, 0] = false :=
  ⟨claimC6_nhs_validator.1 (strOf "9434765919") (strOf "nhs: 9434765919") (by decide),
   claimC6_nhs_validator.2.2 0 (by decide) (by decide)⟩

lemma oddb_succ (n : Nat) : oddb (n + 1) = !oddb n := by
  rcases Nat.mod_two_eq_zero_or_one n with h | h <;> simp [oddb, Nat.add_mod, h]

lemma bool_xor_flip (b o : Bool) : xor (!b) o = xor b (!o) := by
  cases b <;> cases o <;> rfl

lemma bool_not_xor (b o : Bool) : (!(xor b o)) = xor b (!o) := by
  cases b <;> cases o <;> rfl

lemma luhnWalk_append (b : Bool) (l : List Nat) (d : Nat) :
    luhnWalk b (l ++ [d]) =
      luhnWalk b l + (if xor b (oddb l.length) then dbl d else d) := by
  induction l generalizing b with
  | nil => simp [luhnWalk, oddb]
  | cons c t ih =>
      simp only [List.cons_append, luhnWalk, List.length_cons, oddb_succ, List.append_eq]
      rw [ih (!b), bool_xor_flip]
      omega

/-- The source's left-to-right Luhn loop equals the specification's
right-to-left description: summing the reversed digits while doubling every
second one (odd reversed indices) is summing the original digits with the
source's initial flag `!oddb n`. -/
lemma luhnWalk_reverse (b : Bool) (l : List Nat) :
    luhnWalk b l.reverse = luhnWalk (xor b (!oddb l.length)) l := by
  induction l generalizing b with
  | nil => simp [luhnWalk]
  | cons c t ih =>
      rw [List.reverse_cons, luhnWalk_append, ih b]
      simp only [List.length_reverse, List.length_cons, luhnWalk, oddb_succ, Bool.not_not]
      rw [bool_not_xor]
      omega

/-- C7: `validateCreditCard` accepts `4111111111111111`, rejects
`4111111111111112`, and in general accepts a candidate exactly when its
separator-stripped digit count is 13–19 and the Luhn checksum of the claim's
description holds (reverse the digits, double every second one from the
right, subtract 9 above 9, sum, and require sum mod 10 = 0). -/
theorem claimC7_luhn :
    validateCreditCard (strOf "4111111111111111") = true ∧
    validateCreditCard (strOf "4111111111111112") = false ∧
    (∀ t : Str, validateCreditCard t = true ↔
      (13 ≤ (digitsOf t).length ∧ (digitsOf t).length ≤ 19 ∧
        luhnWalk false ((digitsOf t).map charDigit).reverse % 10 = 0)) := by
  refine ⟨by decide, by decide, ?_⟩
  intro t
  have hrev : luhnWalk false ((digitsOf t).map charDigit).reverse =
      luhnWalk (!oddb (digitsOf t).length) ((digitsOf t).map charDigit) := by
    rw [luhnWalk_reverse]
    simp [List.length_map]
  unfold validateCreditCard
  split_ifs with h1 h2
  · constructor
    · intro habs; cases habs
    · rintro ⟨ha, hb, -⟩; omega
  · omega
  · rw [hrev]
    constructor
    · intro h
      refine ⟨by omega, by omega, ?_⟩
      simpa using h
    · rintro ⟨-, -, h⟩
      simpa using h

/-- Witness for C7: the general equivalence applied at the valid card
number. -/
theorem claimC7_witness :
    13 ≤ (digitsOf (strOf "4111111111111111")).length ∧
    (digitsOf (strOf "4111111111111111")).length ≤ 19 ∧
    luhnWalk false ((digitsOf (strOf "4111111111111111")).map charDigit).reverse % 10 = 0 :=
  (claimC7_luhn.2.2 (strOf "4111111111111111")).mp claimC7_luhn.1

/-- A detection result whose flagged words are the overlapping pair of the
specification's longest-match scenario. -/
def overlappingWordsDetection : DetectionResult :=
  { hate_speech := false, profanity := true,
    flagged_words := [strOf "cat", strOf "category"],
    flagged_sentences := [], sensitive_info := [] }

/-- C8 counterexample: with flagged words `cat` and `category`, redacting the
text `category category` leaves `******** ***egory` — the second occurrence
of the longer word is mangled by the substitution of the shorter word, so
"never leaves a mangled partial replacement inside the longer word" is false
as stated. -/
theorem claimC8_counterexample :
    (processText (strOf "category category") overlappingWordsDetection .remove false).1
      = strOf "******** ***egory" ∧
    containsSub
      (processText (strOf "category category") overlappingWordsDetection .remove false).1
      (strOf "***egory") = true :=
  ⟨rfl, rfl⟩

/-- C8 (amended): the Transformer sorts each collection by descending string
length, so with flagged words `cat` and `category` the action `remove`
always substitutes `category` strictly before `cat` — the processed text is
literally the `cat`-replacement applied after the `category`-replacement, so
the substituted (first) occurrence of the longer word is replaced whole; and
on a text with a single occurrence of `category` the output is clean. -/
theorem claimC8_longest_first :
    (∀ text : Str,
      processText text overlappingWordsDetection .remove false =
        (replaceFirst (replaceFirst text (strOf "category") (List.replicate 8 '*'))
          (strOf "cat") (List.replicate 3 '*'), [])) ∧
    processText (strOf "cat category") overlappingWordsDetection .remove false =
      (strOf "*** ********", []) :=
  ⟨fun _text => rfl, rfl⟩

/-- Witness for C8 at a concrete text. -/
theorem claimC8_witness :
    processText (strOf "dog") overlappingWordsDetection .remove false =
      (replaceFirst (replaceFirst (strOf "dog") (strOf "category") (List.replicate 8 '*'))
        (strOf "cat") (List.replicate 3 '*'), []) :=
  claimC8_longest_first.1 (strOf "dog")

/-- A detection result with the two overlapping flagged words of the C10
counterexample. -/
def damnWordsDetection : DetectionResult :=
  { hate_speech := false, profanity := true,
    flagged_words := [strOf "damn", strOf "am"],
    flagged_sentences := [], sensitive_info := [] }

/-- C10 counterexample: with flagged words `damn` and `am`, removing from
`damn damn` yields `**** d**n`: the second occurrence of `damn` does not
remain verbatim — it is partially overwritten by the substitution of the
other flagged word `am`. -/
theorem claimC10_counterexample :
    (processText (strOf "damn damn") damnWordsDetection .remove false).1
      = strOf "**** d**n" ∧
    containsSub (processText (strOf "damn damn") damnWordsDetection .remove false).1
      (strOf "damn") = false :=
  ⟨rfl, rfl⟩

/-- Detection result consisting of a single flagged word. -/
def singleWordDetection (w : Str) : DetectionResult :=
  { hate_speech := false, profanity := true, flagged_words := [w],
    flagged_sentences := [], sensitive_info := [] }

lemma isPre_append (p t : Str) : isPre p (p ++ t) = true := by
  induction p with
  | nil => rfl
  | cons c cs ih => simp [isPre, ih]

lemma firstIdx_decomp (w a b : Str)
    (h : ∀ i, i < a.length → isPre w (List.drop i (a ++ w ++ b)) = false) :
    firstIdx w (a ++ w ++ b) = some a.length := by
  induction a with
  | nil =>
      simp only [List.nil_append, List.length_nil]
      cases hwb : w ++ b with
      | nil =>
          have hw0 : w = [] := by cases w <;> simp_all
          subst hw0
          simp [firstIdx, isPre]
      | cons x xs =>
          have hpre : isPre w (x :: xs) = true := hwb ▸ isPre_append w b
          simp [firstIdx, hpre]
  | cons c a2 ih =>
      have h0 : isPre w (c :: (a2 ++ (w ++ b))) = false := by
        have h3 := h 0 (by simp)
        simpa [List.append_assoc] using h3
      have ih2 : firstIdx w (a2 ++ (w ++ b)) = some a2.length := by
        rw [← List.append_assoc]
        refine ih (fun i hi => ?_)
        have h4 := h (i + 1) (by simpa using Nat.succ_lt_succ hi)
        simpa using h4
      simp only [List.cons_append, List.length_cons, List.append_assoc]
      rw [firstIdx, if_neg (by simp [h0]), ih2]
      rfl

lemma replaceFirst_decomp (w a b r : Str)
    (h : ∀ i, i < a.length → isPre w (List.drop i (a ++ w ++ b)) = false) :
    replaceFirst (a ++ w ++ b) w r = a ++ r ++ b := by
  unfold replaceFirst
  rw [firstIdx_decomp w a b h]
  have h1 : (a ++ w ++ b).take a.length = a := by
    rw [List.append_assoc]
    exact List.take_left a (w ++ b)
  have h2 : (a ++ w ++ b).drop (a.length + w.length) = b := by
    have h3 := List.drop_left (a ++ w) b
    rwa [List.length_append] at h3
  show (a ++ w ++ b).take a.length ++ r ++ (a ++ w ++ b).drop (a.length + w.length)
      = a ++ r ++ b
  rw [h1, h2]

/-- Detection result consisting of a single sensitive item of one category. -/
def singleSensitiveDetection (cat : String) (w : Str) : DetectionResult :=
  { hate_speech := false, profanity := false, flagged_words := [],
    flagged_sentences := [], sensitive_info := [(cat, [w])] }

/-- Detection result consisting of a single flagged sentence. -/
def singleSentenceDetection (w : Str) : DetectionResult :=
  { hate_speech := false, profanity := true, flagged_words := [],
    flagged_sentences := [w], sensitive_info := [] }

lemma processText_single_sensitive_remove (t w : Str) (cat : String)
    (hw : blankStr w = false) :
    processText t (singleSensitiveDetection cat w) .remove false =
      (replaceFirst t w (redactMarker cat), []) := by
  simp [processText, singleSensitiveDetection, stableSortDescBy, insDesc,
    stepSensitive, hw]

lemma processText_single_sensitive_encrypt (t w : Str) (cat : String)
    (hw : blankStr w = false) :
    processText t (singleSensitiveDetection cat w) .encrypt false =
      (replaceFirst t w (encMarker cat),
       [⟨"sensitive", cat, w, encryptData w,
         indexOfInt (replaceFirst t w (encMarker cat)) (encMarker cat)⟩]) := by
  simp [processText, singleSensitiveDetection, stableSortDescBy, insDesc,
    stepSensitive, hw]

lemma processText_single_word (t w : Str) (hw : blankStr w = false) :
    processText t (singleWordDetection w) .remove false =
      (replaceFirst t w (List.replicate w.length '*'), []) := by
  simp [processText, singleWordDetection, stableSortDescBy, insDesc, stepWord, hw]

lemma processText_single_word_encrypt (t w : Str) (hw : blankStr w = false) :
    processText t (singleWordDetection w) .encrypt false =
      (replaceFirst t w (strOf "[ENCRYPTED WORD]"),
       [⟨"flagged_word", "profanity", w, encryptData w,
         indexOfInt (replaceFirst t w (strOf "[ENCRYPTED WORD]"))
           (strOf "[ENCRYPTED WORD]")⟩]) := by
  simp [processText, singleWordDetection, stableSortDescBy, insDesc, stepWord, hw]

lemma processText_single_sentence_remove (t w : Str) (hw : blankStr w = false) :
    processText t (singleSentenceDetection w) .remove false =
      (replaceFirst t w (strOf "[SENTENCE REMOVED DUE TO POLICY VIOLATION]"), []) := by
  simp [processText, singleSentenceDetection, stableSortDescBy, insDesc,
    stepSentence, hw]

lemma processText_single_sentence_encrypt (t w : Str) (hw : blankStr w = false) :
    processText t (singleSentenceDetection w) .encrypt false =
      (replaceFirst t w (strOf "[ENCRYPTED SENTENCE]"),
       [⟨"flagged_sentence", "profanity", w, encryptData w,
         indexOfInt (replaceFirst t w (strOf "[ENCRYPTED SENTENCE]"))
           (strOf "[ENCRYPTED SENTENCE]")⟩]) := by
  simp [processText, singleSentenceDetection, stableSortDescBy, insDesc,
    stepSentence, hw]

/-- C10 (amended): for both actions `remove` and `encrypt` and for each kind
of detected item — sensitive item (any category), flagged word, flagged
sentence — `processText` substitutes the item at most once: only its first
occurrence is replaced by that item's substitution, the prefix before it and
the entire remainder of the text after it — including any later occurrence
of the same string — are kept verbatim, and under `encrypt` the log records
exactly that one substitution.  (With several detected items, a later
occurrence can still be partially overwritten by a different item's
substitution, as the counterexample shows.) -/
theorem claimC10_first_occurrence_only :
    ∀ (a b w : Str) (cat : String), blankStr w = false →
      (∀ i, i < a.length → isPre w (List.drop i (a ++ w ++ b)) = false) →
      (processText (a ++ w ++ b) (singleSensitiveDetection cat w) .remove false =
        (a ++ redactMarker cat ++ b, [])) ∧
      (processText (a ++ w ++ b) (singleSensitiveDetection cat w) .encrypt false =
        (a ++ encMarker cat ++ b,
         [⟨"sensitive", cat, w, encryptData w,
           indexOfInt (a ++ encMarker cat ++ b) (encMarker cat)⟩])) ∧
      (processText (a ++ w ++ b) (singleWordDetection w) .remove false =
        (a ++ List.replicate w.length '*' ++ b, [])) ∧
      (processText (a ++ w ++ b) (singleWordDetection w) .encrypt false =
        (a ++ strOf "[ENCRYPTED WORD]" ++ b,
         [⟨"flagged_word", "profanity", w, encryptData w,
           indexOfInt (a ++ strOf "[ENCRYPTED WORD]" ++ b)
             (strOf "[ENCRYPTED WORD]")⟩])) ∧
      (processText (a ++ w ++ b) (singleSentenceDetection w) .remove false =
        (a ++ strOf "[SENTENCE REMOVED DUE TO POLICY VIOLATION]" ++ b, [])) ∧
      (processText (a ++ w ++ b) (singleSentenceDetection w) .encrypt false =
        (a ++ strOf "[ENCRYPTED SENTENCE]" ++ b,
         [⟨"flagged_sentence", "profanity", w, encryptData w,
           indexOfInt (a ++ strOf "[ENCRYPTED SENTENCE]" ++ b)
             (strOf "[ENCRYPTED SENTENCE]")⟩])) := by
  intro a b w cat hw h
  refine ⟨?_, ?_, ?_, ?_, ?_, ?_⟩
  · rw [processText_single_sensitive_remove _ _ _ hw, replaceFirst_decomp w a b _ h]
  · rw [processText_single_sensitive_encrypt _ _ _ hw, replaceFirst_decomp w a b _ h]
  · rw [processText_single_word _ _ hw, replaceFirst_decomp w a b _ h]
  · rw [processText_single_word_encrypt _ _ hw, replaceFirst_decomp w a b _ h]
  · rw [processText_single_sentence_remove _ _ hw, replaceFirst_decomp w a b _ h]
  · rw [processText_single_sentence_encrypt _ _ hw, replaceFirst_decomp w a b _ h]

/-- Witness for C10: the amended claim at a concrete text in which the item
occurs twice, exercising a `remove` conjunct and an `encrypt` conjunct; the
second occurrence survives verbatim in both. -/
theorem claimC10_witness :
    (processText (strOf "x " ++ strOf "damn" ++ strOf " damn")
        (singleWordDetection (strOf "damn")) .remove false =
      (strOf "x " ++ List.replicate (strOf "damn").length '*' ++ strOf " damn", [])) ∧
    (processText (strOf "x " ++ strOf "damn" ++ strOf " damn")
        (singleSensitiveDetection "emails" (strOf "damn")) .encrypt false =
      (strOf "x " ++ encMarker "emails" ++ strOf " damn",
       [⟨"sensitive", "emails", strOf "damn", encryptData (strOf "damn"),
         indexOfInt (strOf "x " ++ encMarker "emails" ++ strOf " damn")
           (encMarker "emails")⟩])) :=
  ⟨(claimC10_first_occurrence_only (strOf "x ") (strOf " damn") (strOf "damn")
      "emails" (by decide) (by decide)).2.2.1,
   (claimC10_first_occurrence_only (strOf "x ") (strOf " damn") (strOf "damn")
      "emails" (by decide) (by decide)).2.1⟩

end SocioEg
